import Mathlib

/-!
Shallow embedding of `src/chainsafe_ssz_decoder.js`, the light-client-update
decoder of the `verify_light_client_update` repository, together with
theorems about its framing parser (`parseBeaconResponse`), its schema
resolution (`getLightClientUpdateType`), its participation count
(`displayUpdateInfo`) and its proof-verification step
(`verifyNextSyncCommitteeProof`).

Node.js `Buffer` values are modelled as lists of natural numbers (one per
byte); the external `@chainsafe/ssz` hash-tree-root computation is modelled
as a function parameter returning `Option` (it is called inside a
`try`/`catch`); JavaScript exceptions are modelled with `Except`.
-/

namespace LightClient

/-- A Node.js `Buffer`: a sequence of byte values. -/
abbrev Buffer := List Nat

/-- Node's `buffer.readBigUInt64LE(off)`: the 8-byte little-endian unsigned
integer whose least significant byte sits at offset `off`. -/
def readBigUInt64LE (buf : Buffer) (off : Nat) : Nat :=
  buf.getD off 0 + 256 * (buf.getD (off + 1) 0 + 256 * (buf.getD (off + 2) 0 +
    256 * (buf.getD (off + 3) 0 + 256 * (buf.getD (off + 4) 0 +
    256 * (buf.getD (off + 5) 0 + 256 * (buf.getD (off + 6) 0 +
    256 * buf.getD (off + 7) 0))))))

/-- Node's `buffer.slice(start, stop)` for `start ≤ stop`: the bytes from
index `start` (inclusive) to `stop` (exclusive).  As in Node, the bounds are
clamped to the buffer length: the call never throws, it returns a shorter
slice when the buffer ends early. -/
def bufSlice (buf : Buffer) (start stop : Nat) : Buffer :=
  (buf.drop start).take (stop - start)

/-- The single error thrown by `parseBeaconResponse`
(`throw new Error('Response too short')`). -/
inductive ParseError
  | responseTooShort
deriving DecidableEq

/-- The record returned by `parseBeaconResponse`:
`{ chunkLen, forkDigest, payload }`. -/
structure ParsedResponse where
  chunkLen : Nat
  forkDigest : Buffer
  payload : Buffer
deriving DecidableEq

/-- `parseBeaconResponse(buffer)` from `src/chainsafe_ssz_decoder.js`
(lines 33-56): throws when the buffer holds fewer than 12 bytes, otherwise
reads the 8-byte little-endian chunk length at offset 0, the 4-byte fork
digest at offsets 8-11, and slices the payload at `[12, 12 + chunkLen)`. -/
def parseBeaconResponse (buffer : Buffer) : Except ParseError ParsedResponse :=
  if buffer.length < 12 then
    Except.error ParseError.responseTooShort
  else
    let chunkLen := readBigUInt64LE buffer 0
    let forkDigest := bufSlice buffer 8 12
    let payload := bufSlice buffer 12 (12 + chunkLen)
    Except.ok { chunkLen := chunkLen, forkDigest := forkDigest, payload := payload }

/-- `buffer.readBigUInt64LE(0)` as a state transformer on the buffer: the
read returns its value and leaves the buffer bytes untouched. -/
def readBigUInt64LEOp (buffer : Buffer) (off : Nat) : Nat × Buffer :=
  (readBigUInt64LE buffer off, buffer)

/-- `buffer.slice(start, stop)` as a state transformer on the buffer: Node's
`slice` reads the bytes without writing any. -/
def sliceOp (buffer : Buffer) (start stop : Nat) : Buffer × Buffer :=
  (bufSlice buffer start stop, buffer)

/-- `parseBeaconResponse` with the buffer threaded explicitly through each
primitive buffer operation, so that the effect of the function on the
buffer contents is part of the result. -/
def parseBeaconResponseSt (buffer : Buffer) :
    Except ParseError ParsedResponse × Buffer :=
  if buffer.length < 12 then
    (Except.error ParseError.responseTooShort, buffer)
  else
    let p1 := readBigUInt64LEOp buffer 0
    let p2 := sliceOp p1.2 8 12
    let p3 := sliceOp p2.2 12 (12 + p1.1)
    (Except.ok { chunkLen := p1.1, forkDigest := p2.1, payload := p3.1 }, p3.2)

/-- The three `LightClientUpdate` schema objects the source can name:
`ssz.electra.LightClientUpdate`, `ssz.deneb.LightClientUpdate` and
`ssz.capella.LightClientUpdate`. -/
inductive LCUType
  | electra
  | deneb
  | capella
deriving DecidableEq

/-- A JavaScript `try { body } catch (e) { handler }` expression whose body
and handler both produce a value or throw. -/
def tryCatch {α : Type} (body : Except String α)
    (handler : String → Except String α) : Except String α :=
  match body with
  | Except.ok a => Except.ok a
  | Except.error e => handler e

/-- The expression `ssz.electra.LightClientUpdate`: a plain property-access
chain on the statically imported `ssz` object.  In JavaScript a property
access on a defined object never throws, so the expression always yields the
Electra schema object. -/
def sszElectraLightClientUpdate : Except String LCUType :=
  Except.ok LCUType.electra

/-- The expression `ssz.deneb.LightClientUpdate`, likewise a non-throwing
property access. -/
def sszDenebLightClientUpdate : Except String LCUType :=
  Except.ok LCUType.deneb

/-- The expression `ssz.capella.LightClientUpdate`, likewise a non-throwing
property access. -/
def sszCapellaLightClientUpdate : Except String LCUType :=
  Except.ok LCUType.capella

/-- `getLightClientUpdateType(forkDigest)` from `src/chainsafe_ssz_decoder.js`
(lines 61-83): nested `try`/`catch` blocks that return
`ssz.electra.LightClientUpdate`, falling back to Deneb, then Capella, and
finally throwing, where each fallback runs only if the previous block threw. -/
def getLightClientUpdateType (forkDigest : Buffer) : Except String LCUType :=
  tryCatch sszElectraLightClientUpdate fun _ =>
    tryCatch sszDenebLightClientUpdate fun _ =>
      tryCatch sszCapellaLightClientUpdate fun _ =>
        Except.error "Could not determine LightClientUpdate type for this fork"

/-- A decoded `BeaconBlockHeader` (the `beacon` field of a light client
header): slot, proposer index and the three 32-byte roots. -/
structure BeaconBlockHeader where
  slot : Nat
  proposerIndex : Nat
  parentRoot : Buffer
  stateRoot : Buffer
  bodyRoot : Buffer
deriving DecidableEq

/-- A decoded `LightClientHeader`, of which the source only touches the
`beacon` field. -/
structure LightClientHeader where
  beacon : BeaconBlockHeader
deriving DecidableEq

/-- A decoded `SyncCommittee`: 512 48-byte BLS public keys and the
aggregate public key. -/
structure SyncCommittee where
  pubkeys : List Buffer
  aggregatePubkey : Buffer
deriving DecidableEq

/-- The `BitArray` objects produced by the SSZ library for bit-vectors:
a bit length and the packed bytes in `uint8Array`. -/
structure BitArray where
  bitLen : Nat
  uint8Array : Buffer
deriving DecidableEq

/-- A decoded `SyncAggregate`: the sync-committee bit-vector and the
aggregate signature. -/
structure SyncAggregate where
  syncCommitteeBits : BitArray
  syncCommitteeSignature : Buffer
deriving DecidableEq

/-- A decoded `LightClientUpdate` as the source reads it: attested and
finalized headers, the optional next sync committee with its Merkle branch,
the finality branch, the sync aggregate and the signature slot.
`nextSyncCommittee` is `none` when the field is absent or falsy, the case
the source tests with `if (!update.nextSyncCommittee)`. -/
structure LightClientUpdate where
  attestedHeader : LightClientHeader
  nextSyncCommittee : Option SyncCommittee
  nextSyncCommitteeBranch : List Buffer
  finalizedHeader : LightClientHeader
  finalityBranch : List Buffer
  syncAggregate : SyncAggregate
  signatureSlot : Nat
deriving DecidableEq

/-- `byte.toString(2).split('1').length - 1`: the number of 1 digits in the
binary representation of a byte.  Written with an explicit fuel of 8
halving steps, which covers every byte value (all values below 256). -/
def countOnesAux : Nat → Nat → Nat
  | 0, _ => 0
  | fuel + 1, n => if n = 0 then 0 else n % 2 + countOnesAux fuel (n / 2)

/-- The per-byte one-counting step of the participation loop of
`displayUpdateInfo`. -/
def countOnesByte (n : Nat) : Nat := countOnesAux 8 n

/-- The participation loop of `displayUpdateInfo`
(`for (const byte of syncBits.uint8Array) participation += ...`):
starting from 0, add the count of 1 digits of every byte. -/
def participationCount (bits : Buffer) : Nat :=
  bits.foldl (fun participation byte => participation + countOnesByte byte) 0

/-- The participation number printed by `displayUpdateInfo` for a decoded
update (the numerator of the reported `participation/512`). -/
def reportedParticipation (update : LightClientUpdate) : Nat :=
  participationCount update.syncAggregate.syncCommitteeBits.uint8Array

/-- Population count of a single byte, stated independently of the source:
the number of set bits among bit positions 0 through 7. -/
def popcountByte (b : Nat) : Nat :=
  ((List.range 8).filter fun i => b.testBit i).length

/-- Population count over a sequence of raw bytes. -/
def popcountBytes (bits : Buffer) : Nat :=
  (bits.map popcountByte).sum

/-- `verifyNextSyncCommitteeProof(update, LightClientUpdateType)` from
`src/chainsafe_ssz_decoder.js` (lines 134-160).  The external call
`LightClientUpdateType.fields.nextSyncCommittee.hashTreeRoot(...)` is
modelled by the parameter `hashTreeRoot`, which returns `some root` when the
library call succeeds and `none` when it throws (the `catch` branch).
When the update has no next sync committee the function returns `true`
at once; otherwise it returns `true` exactly when the hash-tree-root
computation succeeds — the branch and any expected root are never read. -/
def verifyNextSyncCommitteeProof (hashTreeRoot : SyncCommittee → Option Buffer)
    (update : LightClientUpdate) : Bool :=
  match update.nextSyncCommittee with
  | none => true
  | some committee =>
    match hashTreeRoot committee with
    | some _ => true
    | none => false

/-- The three console outcomes of `verifyNextSyncCommitteeProof`:
`No next sync committee to verify` (early `return true`),
`Successfully computed sync committee root` (`return true` after the root
computation), and the `catch` branch (`return false`). -/
inductive VerifyOutcome
  | noSyncCommittee
  | computedRoot
  | errored
deriving DecidableEq

/-- `verifyNextSyncCommitteeProof` with its three code paths kept apart,
mirroring the three distinct console messages of the source. -/
def verifyNextSyncCommitteeOutcome (hashTreeRoot : SyncCommittee → Option Buffer)
    (update : LightClientUpdate) : VerifyOutcome :=
  match update.nextSyncCommittee with
  | none => VerifyOutcome.noSyncCommittee
  | some committee =>
    match hashTreeRoot committee with
    | some _ => VerifyOutcome.computedRoot
    | none => VerifyOutcome.errored

/-! ## Concrete sample values

A concrete decoded Electra update with all 512 participation bits set, a
present next sync committee and a 6-step branch (the depth of generalized
index 87), used to instantiate the theorems below. -/

/-- A 32-byte all-zero root. -/
def root0 : Buffer := List.replicate 32 0

/-- A 48-byte all-zero BLS public key. -/
def pubkey0 : Buffer := List.replicate 48 0

/-- A concrete sync committee of 512 public keys. -/
def committee0 : SyncCommittee :=
  { pubkeys := List.replicate 512 pubkey0, aggregatePubkey := pubkey0 }

/-- A concrete light client header. -/
def header0 : LightClientHeader :=
  { beacon := { slot := 100, proposerIndex := 7, parentRoot := root0,
                stateRoot := root0, bodyRoot := root0 } }

/-- A concrete sync aggregate whose 512-bit vector is all ones. -/
def syncAggregate0 : SyncAggregate :=
  { syncCommitteeBits := { bitLen := 512, uint8Array := List.replicate 64 255 },
    syncCommitteeSignature := List.replicate 96 0 }

/-- A concrete six-element next-sync-committee branch of zero roots. -/
def branch0 : List Buffer := List.replicate 6 root0

/-- A concrete decoded update with a next sync committee present. -/
def update0 : LightClientUpdate :=
  { attestedHeader := header0, nextSyncCommittee := some committee0,
    nextSyncCommitteeBranch := branch0, finalizedHeader := header0,
    finalityBranch := List.replicate 4 root0, syncAggregate := syncAggregate0,
    signatureSlot := 101 }

/-- `update0` with one byte of its `nextSyncCommitteeBranch` mutated:
byte 0 of branch element 0 changes from 0 to 1. -/
def updateMutated : LightClientUpdate :=
  { update0 with nextSyncCommitteeBranch := branch0.set 0 (root0.set 0 1) }

/-- `update0` with the next sync committee absent. -/
def updateNone : LightClientUpdate :=
  { update0 with nextSyncCommittee := none }

/-- A concrete hash-tree-root function that always succeeds, standing for
the library call on a well-formed decoded committee. -/
def htr0 : SyncCommittee → Option Buffer := fun _ => some root0

/-- A concrete hash-tree-root function that always throws. -/
def htrFail : SyncCommittee → Option Buffer := fun _ => none

/-- A concrete 4-byte fork digest matching no known fork. -/
def unknownDigest : Buffer := [222, 173, 190, 239]

/-- A concrete well-formed framed input: chunk length 3, fork digest
`01 02 03 04`, and three payload bytes. -/
def bufW : Buffer := [3, 0, 0, 0, 0, 0, 0, 0, 1, 2, 3, 4, 7, 8, 9]

/-- A concrete framed input whose declared chunk length 5 overruns the
12-byte buffer. -/
def bufOverrun : Buffer := [5, 0, 0, 0, 0, 0, 0, 0, 1, 2, 3, 4]

/-- A concrete 12-byte framed input with declared chunk length 0. -/
def bufZero : Buffer := [0, 0, 0, 0, 0, 0, 0, 0, 1, 2, 3, 4]

/-! ## Helper lemmas -/

/-- Reading a dropped list at `i` reads the original list at `n + i`. -/
theorem getD_drop (l : Buffer) (n i : Nat) :
    (l.drop n).getD i 0 = l.getD (n + i) 0 := by
  simp [List.getD_eq_getElem?_getD, List.getElem?_drop]

/-- The first four elements of a list of length at least four. -/
theorem take_four (d : Buffer) (h : 4 ≤ d.length) :
    d.take 4 = [d.getD 0 0, d.getD 1 0, d.getD 2 0, d.getD 3 0] :=
  match d, h with
  | _ :: _ :: _ :: _ :: _, _ => rfl
  | [], h => absurd h (by simp)
  | [_], h => absurd h (by simp)
  | [_, _], h => absurd h (by simp)
  | [_, _, _], h => absurd h (by simp)

/-- The slice at `[8, 12)` of a buffer of length at least 12, elementwise. -/
theorem bufSlice_8_12 (buffer : Buffer) (h : 12 ≤ buffer.length) :
    bufSlice buffer 8 12 =
      [buffer.getD 8 0, buffer.getD 9 0, buffer.getD 10 0, buffer.getD 11 0] := by
  have h4 : 4 ≤ (buffer.drop 8).length := by
    simp only [List.length_drop]
    omega
  have ht := take_four (buffer.drop 8) h4
  simpa [bufSlice, getD_drop] using ht

/-- The participation loop with an arbitrary starting accumulator. -/
theorem foldl_countOnes (bits : Buffer) (acc : Nat) :
    bits.foldl (fun participation byte => participation + countOnesByte byte) acc =
      acc + (bits.map countOnesByte).sum := by
  induction bits generalizing acc with
  | nil => simp
  | cons b t ih => simp [List.foldl, ih, Nat.add_assoc]

set_option maxRecDepth 8192 in
/-- On byte values, the source's binary-digit counting agrees with the
population count. -/
theorem countOnesByte_eq_popcountByte : ∀ b, b < 256 → countOnesByte b = popcountByte b := by
  decide

/-! ## Claim theorems -/

/-- C10: for every 4-byte fork digest, including digests matching no known
fork, `getLightClientUpdateType` returns the Electra `LightClientUpdate`
type and never throws — the `try` body is a plain field access that cannot
fail, so the Deneb and Capella fallbacks and the final error are
unreachable. -/
theorem getLightClientUpdateType_always_electra (forkDigest : Buffer) :
    getLightClientUpdateType forkDigest = Except.ok LCUType.electra := rfl

/-- C3 counterexample: on a concrete fork digest that matches no known
fork, `getLightClientUpdateType` does not fail with the unknown-fork error;
it returns the Electra type, so no digest table is consulted and the
fallback chain is never exercised. -/
theorem unknownDigest_resolves_to_electra :
    getLightClientUpdateType unknownDigest = Except.ok LCUType.electra ∧
    getLightClientUpdateType unknownDigest ≠
      Except.error "Could not determine LightClientUpdate type for this fork" :=
  ⟨rfl, fun hcontra => nomatch hcontra⟩

/-- C3 amended: schema resolution ignores the fork digest entirely — there
is no digest-to-schema table and no decode-failure probing; the first
`try` body is a plain field access that always succeeds, so the result is
the same successful Electra schema for every digest and the unknown-fork
error is unreachable. -/
theorem getLightClientUpdateType_ignores_digest (d e : Buffer) :
    getLightClientUpdateType d = getLightClientUpdateType e ∧
    (getLightClientUpdateType d).isOk = true := ⟨rfl, rfl⟩

/-- C9: the framing parser only reads the buffer: threading the buffer
through every primitive operation returns it unchanged, and the result is
the same as the pure parse, whether it returns or fails. -/
theorem parseBeaconResponseSt_preserves_buffer (buffer : Buffer) :
    (parseBeaconResponseSt buffer).2 = buffer ∧
    (parseBeaconResponseSt buffer).1 = parseBeaconResponse buffer := by
  by_cases h : buffer.length < 12 <;>
    simp [parseBeaconResponseSt, parseBeaconResponse, readBigUInt64LEOp, sliceOp, h]

/-- C4 counterexample: a concrete 12-byte buffer declaring chunk length 5
(so that `12 + chunkLen` exceeds the buffer length) does not fail: the
parser returns success with a silently clamped empty payload. -/
theorem overlong_chunk_parses_ok :
    bufOverrun.length = 12 ∧ readBigUInt64LE bufOverrun 0 = 5 ∧
    parseBeaconResponse bufOverrun =
      Except.ok { chunkLen := 5, forkDigest := [1, 2, 3, 4], payload := [] } :=
  ⟨rfl, rfl, rfl⟩

/-- C4 amended: the framing parser fails (with the `Response too short`
error) exactly when the buffer length is below 12; when at least
`chunkLen` bytes follow the 12-byte header the payload has length exactly
`chunkLen`, and otherwise the parser still succeeds, with the payload
silently clamped to the bytes available. -/
theorem parseBeaconResponse_truncation (buffer : Buffer) :
    (buffer.length < 12 → parseBeaconResponse buffer = Except.error ParseError.responseTooShort) ∧
    (12 ≤ buffer.length → ∃ r, parseBeaconResponse buffer = Except.ok r ∧
      (12 + r.chunkLen ≤ buffer.length → r.payload.length = r.chunkLen) ∧
      r.payload.length = min r.chunkLen (buffer.length - 12)) := by
  constructor
  · intro h
    simp [parseBeaconResponse, h]
  · intro h
    refine ⟨{ chunkLen := readBigUInt64LE buffer 0, forkDigest := bufSlice buffer 8 12,
              payload := bufSlice buffer 12 (12 + readBigUInt64LE buffer 0) }, ?_, ?_, ?_⟩
    · simp [parseBeaconResponse, Nat.not_lt.mpr h]
    · intro hlen
      simp only [bufSlice, List.length_take, List.length_drop] at hlen ⊢
      omega
    · simp only [bufSlice, List.length_take, List.length_drop]
      omega

/-- C4 witness: on the concrete well-formed input `bufW` the parser
succeeds with a payload of the declared length. -/
theorem parseBeaconResponse_truncation_witness :
    ∃ r, parseBeaconResponse bufW = Except.ok r ∧
      (12 + r.chunkLen ≤ bufW.length → r.payload.length = r.chunkLen) ∧
      r.payload.length = min r.chunkLen (bufW.length - 12) :=
  (parseBeaconResponse_truncation bufW).2 (by decide)

/-- C5: on every buffer of length at least 12 the parser succeeds, reads
`chunkLen` as the 8-byte little-endian unsigned integer at offset 0, the
fork digest as the bytes at offsets 8 through 11, and returns as payload
the slice `[12, 12 + chunkLen)` of the buffer. -/
theorem parseBeaconResponse_reads_frame (buffer : Buffer) (h : 12 ≤ buffer.length) :
    ∃ r, parseBeaconResponse buffer = Except.ok r ∧
      r.chunkLen = ∑ i ∈ Finset.range 8, buffer.getD i 0 * 256 ^ i ∧
      r.forkDigest = [buffer.getD 8 0, buffer.getD 9 0, buffer.getD 10 0, buffer.getD 11 0] ∧
      r.payload = (buffer.drop 12).take r.chunkLen := by
  refine ⟨{ chunkLen := readBigUInt64LE buffer 0, forkDigest := bufSlice buffer 8 12,
            payload := bufSlice buffer 12 (12 + readBigUInt64LE buffer 0) }, ?_, ?_, ?_, ?_⟩
  · simp [parseBeaconResponse, Nat.not_lt.mpr h]
  · simp [readBigUInt64LE, Finset.sum_range_succ]
    ring
  · exact bufSlice_8_12 buffer h
  · simp [bufSlice, Nat.add_sub_cancel_left]

/-- C5 witness: the frame-reading property evaluated on the concrete
input `bufW`. -/
theorem parseBeaconResponse_reads_frame_witness :
    ∃ r, parseBeaconResponse bufW = Except.ok r ∧
      r.chunkLen = ∑ i ∈ Finset.range 8, bufW.getD i 0 * 256 ^ i ∧
      r.forkDigest = [bufW.getD 8 0, bufW.getD 9 0, bufW.getD 10 0, bufW.getD 11 0] ∧
      r.payload = (bufW.drop 12).take r.chunkLen :=
  parseBeaconResponse_reads_frame bufW (by decide)

/-- C8: on every buffer of length at least 12 whose declared chunk length
is 0, the framing parser succeeds and returns an empty payload. -/
theorem parse_zero_chunk_ok (buffer : Buffer) (h : 12 ≤ buffer.length)
    (h0 : readBigUInt64LE buffer 0 = 0) :
    ∃ r, parseBeaconResponse buffer = Except.ok r ∧ r.chunkLen = 0 ∧ r.payload = [] := by
  refine ⟨{ chunkLen := readBigUInt64LE buffer 0, forkDigest := bufSlice buffer 8 12,
            payload := bufSlice buffer 12 (12 + readBigUInt64LE buffer 0) }, ?_, h0, ?_⟩
  · simp [parseBeaconResponse, Nat.not_lt.mpr h]
  · simp [bufSlice, h0]

/-- C8 witness: the zero-chunk-length property evaluated on the concrete
12-byte input `bufZero`. -/
theorem parse_zero_chunk_ok_witness :
    ∃ r, parseBeaconResponse bufZero = Except.ok r ∧ r.chunkLen = 0 ∧ r.payload = [] :=
  parse_zero_chunk_ok bufZero (by decide) (by decide)

/-- C2: whenever the next sync committee is present and the external
hash-tree-root computation succeeds, `verifyNextSyncCommitteeProof` returns
`true`; and its result is unchanged when the update's
`nextSyncCommitteeBranch` and the attested header's state root are replaced
by anything else — the branch and any expected root are never consulted. -/
theorem verify_true_and_ignores_branch_and_root
    (hashTreeRoot : SyncCommittee → Option Buffer) (update : LightClientUpdate)
    (committee : SyncCommittee) (root : Buffer) (branch : List Buffer)
    (stateRoot : Buffer)
    (hc : update.nextSyncCommittee = some committee)
    (hr : hashTreeRoot committee = some root) :
    verifyNextSyncCommitteeProof hashTreeRoot update = true ∧
    verifyNextSyncCommitteeProof hashTreeRoot
      { update with
        nextSyncCommitteeBranch := branch
        attestedHeader :=
          { beacon := { update.attestedHeader.beacon with stateRoot := stateRoot } } } =
      verifyNextSyncCommitteeProof hashTreeRoot update := by
  simp [verifyNextSyncCommitteeProof, hc, hr]

/-- C2 witness: evaluated on the concrete update `update0` with the
always-succeeding hash-tree-root function, an empty branch and an empty
replacement state root. -/
theorem verify_true_and_ignores_branch_and_root_witness :
    verifyNextSyncCommitteeProof htr0 update0 = true ∧
    verifyNextSyncCommitteeProof htr0
      { update0 with
        nextSyncCommitteeBranch := []
        attestedHeader :=
          { beacon := { update0.attestedHeader.beacon with stateRoot := [] } } } =
      verifyNextSyncCommitteeProof htr0 update0 :=
  verify_true_and_ignores_branch_and_root htr0 update0 committee0 root0 [] [] rfl rfl

/-- C1 counterexample: mutating one byte of the concrete update's
`nextSyncCommitteeBranch` does not make `verifyNextSyncCommitteeProof`
report `false`: both the original and the mutated update verify `true`. -/
theorem mutated_branch_still_verifies_true :
    updateMutated.nextSyncCommitteeBranch ≠ update0.nextSyncCommitteeBranch ∧
    verifyNextSyncCommitteeProof htr0 update0 = true ∧
    verifyNextSyncCommitteeProof htr0 updateMutated = true := by
  refine ⟨?_, rfl, rfl⟩
  decide

/-- C1 amended: for every decoded update, replacing
`nextSyncCommitteeBranch` (in particular mutating one of its bytes) leaves
the result of `verifyNextSyncCommitteeProof` unchanged — verification does
not report `false` under branch mutation, because the branch is never
read. -/
theorem verify_unchanged_by_branch_mutation
    (hashTreeRoot : SyncCommittee → Option Buffer) (update : LightClientUpdate)
    (branch : List Buffer) :
    verifyNextSyncCommitteeProof hashTreeRoot
        { update with nextSyncCommitteeBranch := branch } =
      verifyNextSyncCommitteeProof hashTreeRoot update := rfl

/-- C7: when the decoded update has no next sync committee,
`verifyNextSyncCommitteeProof` returns `true` (trivially valid), the
distinguished outcome is the no-sync-committee path, and the result does
not depend on the hash-tree-root function — no proof check is invoked. -/
theorem verify_absent_committee_trivially_true
    (hashTreeRoot g : SyncCommittee → Option Buffer) (update : LightClientUpdate)
    (h : update.nextSyncCommittee = none) :
    verifyNextSyncCommitteeProof hashTreeRoot update = true ∧
    verifyNextSyncCommitteeOutcome hashTreeRoot update = VerifyOutcome.noSyncCommittee ∧
    verifyNextSyncCommitteeProof g update = verifyNextSyncCommitteeProof hashTreeRoot update := by
  simp [verifyNextSyncCommitteeProof, verifyNextSyncCommitteeOutcome, h]

/-- C7 witness: evaluated on the concrete update without a next sync
committee, under both the always-succeeding and the always-throwing
hash-tree-root functions. -/
theorem verify_absent_committee_witness :
    verifyNextSyncCommitteeProof htr0 updateNone = true ∧
    verifyNextSyncCommitteeOutcome htr0 updateNone = VerifyOutcome.noSyncCommittee ∧
    verifyNextSyncCommitteeProof htrFail updateNone =
      verifyNextSyncCommitteeProof htr0 updateNone :=
  verify_absent_committee_trivially_true htr0 htrFail updateNone rfl

/-- C6: the reported sync-committee participation equals the population
count over the raw bytes of the sync aggregate's bit-vector, and an
all-ones 512-bit vector (64 bytes of 255) is counted as 512. -/
theorem reported_participation_is_popcount (update : LightClientUpdate)
    (h : ∀ b ∈ update.syncAggregate.syncCommitteeBits.uint8Array, b < 256) :
    reportedParticipation update =
      popcountBytes update.syncAggregate.syncCommitteeBits.uint8Array ∧
    participationCount (List.replicate 64 255) = 512 := by
  constructor
  · have hmap : update.syncAggregate.syncCommitteeBits.uint8Array.map countOnesByte =
        update.syncAggregate.syncCommitteeBits.uint8Array.map popcountByte :=
      List.map_congr_left fun b hb => countOnesByte_eq_popcountByte b (h b hb)
    simp [reportedParticipation, participationCount, popcountBytes, foldl_countOnes, hmap]
  · decide

/-- C6 witness: evaluated on the concrete update `update0`, whose
bit-vector bytes are all 255. -/
theorem reported_participation_witness :
    reportedParticipation update0 =
      popcountBytes update0.syncAggregate.syncCommitteeBits.uint8Array ∧
    participationCount (List.replicate 64 255) = 512 :=
  reported_participation_is_popcount update0 (by decide)

end LightClient
